import Mathlib

set_option linter.unusedVariables false

/-!
Shallow embedding of `src/ephemeris/ephemeris_log.py` (the ephemeris logging
module): the `Logger` facade, its two backends `LoggingLogger` and
`SpinningLogger`, the `ProgressConsoleHandler`, and the setup functions.

Conventions of the embedding:
* Python's mutable object state is passed explicitly (the `_spinning` flag is
  a `Bool` argument and result; the spinner's `text`/`color` live in
  `SpinState`).
* A call `logger.log(level, msg)` / `file_logger.log(level, msg)` is modelled
  as producing a `LogEvent`.
* Python `%`-formatting (`msg % args`) is modelled by `pyFormat`, which
  substitutes successive string arguments for occurrences of the specifier
  `%s` (the only use this module makes of `%`-formatting of arguments).
* Keyword arguments (`kwargs.get('level', ...)`, `kwargs.get('color', ...)`,
  `'append' in kwargs`) are modelled as `Option` parameters.
-/

namespace EphemerisLog

/-- Numeric values of the standard Python `logging` levels. -/
def DEBUG : Nat := 10

def INFO : Nat := 20

def WARNING : Nat := 30

def ERROR : Nat := 40

/-- A single line delivered to a (file or console) logger: `log(level, msg)`. -/
structure LogEvent where
  level : Nat
  msg : String
deriving DecidableEq, Repr

/-- Python `%s`-substitution on the character list: each `%s` specifier
consumes the next argument. -/
def pyFormatAux : List Char → List String → List Char
  | [], _ => []
  | '%' :: 's' :: rest, a :: args => a.data ++ pyFormatAux rest args
  | c :: rest, args => c :: pyFormatAux rest args

/-- Python `msg % args`, restricted to `%s` specifiers with string
arguments (the only formatting this module performs on arguments). -/
def pyFormat (msg : String) (args : List String) : String :=
  ⟨pyFormatAux msg.data args⟩

/-- `Logger._getmsg(self, msg, *args)`, as written in the source:
`if self._spinning: msg += self._msg_prefix + msg` followed by
`return msg % args`.  Note the `+=`: when the flag is set the result is
`msg + prefix + msg`, not `prefix + msg`. -/
def getmsg (spinning : Bool) (msgPfx : String) (msg : String)
    (args : List String) : String :=
  let msg := if spinning then msg ++ (msgPfx ++ msg) else msg
  pyFormat msg args

/-- The four lifecycle operations of the `Logger` facade. -/
inductive LifecycleOp
  | start
  | ok
  | skip
  | fail
deriving DecidableEq, Repr

/-- `Logger.start/ok/skip/fail`: the new value of `self._spinning` after the
operation runs on a logger whose flag is `spinning`. -/
def lifecycleStep (spinning : Bool) : LifecycleOp → Bool
  | LifecycleOp.start => true
  | LifecycleOp.ok => false
  | LifecycleOp.skip => false
  | LifecycleOp.fail => false

/-- The flag after running a whole sequence of lifecycle operations. -/
def runLifecycle (init : Bool) : List LifecycleOp → Bool
  | [] => init
  | op :: ops => runLifecycle (lifecycleStep init op) ops

/-- Statement helper: whether an operation is `start`. -/
def isStart : LifecycleOp → Bool
  | LifecycleOp.start => true
  | _ => false

namespace LoggingLogger

/-- `LoggingLogger._msg_prefix = '\t'`. -/
def msgPfx : String := "\t"

/-- `LoggingLogger._mlog(self, level, msg, *args)`:
`self.log(level, self._getmsg(msg), *args)` — the prefixed message is
computed by `_getmsg` with no arguments, and the `logging` machinery then
formats it with `args`. -/
def mlog (spinning : Bool) (level : Nat) (msg : String)
    (args : List String) : LogEvent :=
  ⟨level, pyFormat (getmsg spinning msgPfx msg []) args⟩

/-- `LoggingLogger.start`: logs `msg % args` at `kwargs.get('level',
logging.DEBUG)` and then `Logger.start` sets the flag to `True`. -/
def start (spinning : Bool) (msg : String) (args : List String)
    (levelKw : Option Nat) : LogEvent × Bool :=
  (⟨levelKw.getD DEBUG, pyFormat msg args⟩, true)

/-- `LoggingLogger.ok`: logs `msg % args` at `kwargs.get('level',
logging.DEBUG)` and then `Logger.ok` sets the flag to `False`. -/
def ok (spinning : Bool) (msg : String) (args : List String)
    (levelKw : Option Nat) : LogEvent × Bool :=
  (⟨levelKw.getD DEBUG, pyFormat msg args⟩, false)

/-- `skip = ok` (a class-body alias in the source). -/
def skip : Bool → String → List String → Option Nat → LogEvent × Bool := ok

/-- `LoggingLogger.fail`: logs `msg % args` at `logging.ERROR` (the `level`
keyword argument, if any, is never read) and then `Logger.fail` sets the
flag to `False`. -/
def fail (spinning : Bool) (msg : String) (args : List String)
    (levelKw : Option Nat) : LogEvent × Bool :=
  (⟨ERROR, pyFormat msg args⟩, false)

end LoggingLogger

/-- The mutable presentation state of the spinner widget that the source
reads and writes: `self.text` and `self.color`. -/
structure SpinState where
  text : String
  color : String
deriving DecidableEq, Repr

namespace SpinningLogger

/-- `SpinningLogger._msg_prefix = '> '`. -/
def msgPfx : String := "> "

/-- `SpinningLogger.__append(self, kwargs)`: if an `append` keyword argument
is present, `self.text += ' ' + kwargs['append']`. -/
def appendKw (s : SpinState) (append : Option String) : SpinState :=
  match append with
  | none => s
  | some a => { s with text := s.text ++ (" " ++ a) }

/-- `SpinningLogger._mlog(self, level, msg, *args)`: computes
`log_msg = self._getmsg(msg, *args)`, then `self.write(log_msg)` (first
component: the text written to the terminal spinner) and
`self.file_logger.log(level, log_msg)` (second component). -/
def mlog (spinning : Bool) (level : Nat) (msg : String)
    (args : List String) : String × LogEvent :=
  let log_msg := getmsg spinning msgPfx msg args
  (log_msg, ⟨level, log_msg⟩)

/-- `SpinningLogger.start`: `self.text = msg`;
`self.color = kwargs.get('color', 'cyan')`; the spinner widget is started;
`self.file_logger.info(self.text)` (the returned `LogEvent`). -/
def start (s : SpinState) (msg : String) (colorKw : Option String) :
    SpinState × LogEvent :=
  let s := { s with text := msg, color := colorKw.getD "cyan" }
  (s, ⟨INFO, s.text⟩)

/-- `SpinningLogger.ok`: `self.__append(kwargs)`; `self.color = 'green'`;
the spinner widget is stopped with symbol `'✔'` (middle component);
`self.file_logger.info('{0} {1}'.format('✔', self.text))` is the returned
`LogEvent`. -/
def ok (s : SpinState) (append : Option String) :
    SpinState × String × LogEvent :=
  let s := appendKw s append
  let s := { s with color := "green" }
  (s, "✔", ⟨INFO, "✔" ++ " " ++ s.text⟩)

/-- `SpinningLogger.skip`: `self.__append(kwargs)`; `self.color = 'yellow'`;
the spinner widget is stopped with symbol `'-'`;
`self.file_logger.info('{0} {1}'.format('-', self.text))`. -/
def skip (s : SpinState) (append : Option String) :
    SpinState × String × LogEvent :=
  let s := appendKw s append
  let s := { s with color := "yellow" }
  (s, "-", ⟨INFO, "-" ++ " " ++ s.text⟩)

/-- `SpinningLogger.fail`: `self.__append(kwargs)`; `self.color = 'red'`;
the spinner widget is stopped with symbol `'✘'`;
`self.file_logger.info('{0} {1}'.format('✘', self.text))`. -/
def fail (s : SpinState) (append : Option String) :
    SpinState × String × LogEvent :=
  let s := appendKw s append
  let s := { s with color := "red" }
  (s, "✘", ⟨INFO, "✘" ++ " " ++ s.text⟩)

end SpinningLogger

namespace ProgressConsoleHandler

/-- The body of `ProgressConsoleHandler.emit` after a record has been
formatted to `msg`: given the handler's `on_same_line` state and whether the
record carries the `same_line` attribute, returns everything written to the
stream and the new `on_same_line` state. -/
def emit (on_same_line : Bool) (same_line : Bool) (msg : String) :
    String × Bool :=
  let pre := if on_same_line && !same_line then "\r\n" else ""
  if same_line then
    (pre ++ (msg ++ "."), true)
  else
    (pre ++ (msg ++ "\r\n"), false)

/-- The exceptions Python can raise in the `try` block of `emit`, split as
the two `except` clauses of the source split them: `KeyboardInterrupt`,
`SystemExit`, and any `Exception` subclass (carrying its name). -/
inductive PyExc
  | keyboardInterrupt
  | systemExit
  | exc (name : String)
deriving DecidableEq, Repr

/-- How a call to `ProgressConsoleHandler.emit` finishes. -/
inductive EmitOutcome
  | normal (written : String) (on_same_line : Bool)
  | errorHandled
  | raised (e : PyExc)
deriving DecidableEq, Repr

/-- The `try/except` skeleton of `ProgressConsoleHandler.emit`: `body` is
the outcome of formatting the record and writing it (on success it yields
what `emit` wrote and the new `on_same_line` state).
`except (KeyboardInterrupt, SystemExit): raise` re-raises those two;
`except Exception: self.handleError(record)` turns any other exception into
a normal return after `handleError`. -/
def emitGuard (body : Except PyExc (String × Bool)) : EmitOutcome :=
  match body with
  | Except.ok r => EmitOutcome.normal r.1 r.2
  | Except.error PyExc.keyboardInterrupt =>
      EmitOutcome.raised PyExc.keyboardInterrupt
  | Except.error PyExc.systemExit => EmitOutcome.raised PyExc.systemExit
  | Except.error (PyExc.exc _) => EmitOutcome.errorHandled

end ProgressConsoleHandler

/-- The pattern of the `logging.Formatter` built in
`setup_global_logging_logger`. -/
def formatterPattern : String := "%(asctime)s %(levelname)-5s - %(message)s"

/-- A handler that can be attached to the conventional logger. -/
inductive Handler
  | progressConsole
  | streamConsole (fmt : String)
  | fileHandler (path : String)
deriving DecidableEq, Repr

/-- The observable wiring of the logger returned by
`setup_global_logging_logger`. -/
structure LoggerConfig where
  level : Nat
  handlers : List Handler
  initLine : LogEvent
deriving DecidableEq, Repr

/-- `setup_global_logging_logger(name, log_file)`: builds the formatter, a
`ProgressConsoleHandler`, and a `StreamHandler` carrying the formatter
(`console`, which the source constructs but never adds to the logger); sets
the logger's level to `DEBUG`; adds the progress handler and a `FileHandler`
on `log_file`; and logs `"Storing log file in: <log_file>"` at `INFO`. -/
def setup_global_logging_logger (name : String) (log_file : String) :
    LoggerConfig :=
  let progress := Handler.progressConsole
  let _console := Handler.streamConsole formatterPattern
  let handlers := [progress]
  let handlers := handlers ++ [Handler.fileHandler log_file]
  { level := DEBUG
    handlers := handlers
    initLine := ⟨INFO, "Storing log file in: " ++ log_file⟩ }

/-- `make_log_file(log_file)`: if `log_file` is falsy (`None` or the empty
string), a fresh named temporary file is used; its
environment-chosen name is the `tempName` parameter. -/
def make_log_file (tempName : String) (log_file : Option String) : String :=
  match log_file with
  | none => tempName
  | some s => if s = "" then tempName else s

/-- The backend object returned by `setup_global_logger`. -/
inductive GlobalLogger
  | spinning (name : String) (log_file : String)
  | logging (config : LoggerConfig)
deriving DecidableEq, Repr

/-- `setup_global_logger(name, log_file, logger)`: resolves the log file
with `make_log_file`, then returns `SpinningLogger(name=name,
log_file=log_file)` when `logger == 'spinning'` and the result of
`setup_global_logging_logger(name, log_file=log_file)` otherwise. -/
def setup_global_logger (tempName : String) (name : String)
    (log_file : Option String) (logger : String) : GlobalLogger :=
  let lf := make_log_file tempName log_file
  if logger = "spinning" then
    GlobalLogger.spinning name lf
  else
    GlobalLogger.logging (setup_global_logging_logger name lf)

open ProgressConsoleHandler

/-- Claim C1 (evaluation of the code at the failing input): with the
"currently showing progress" flag set, `_getmsg` emits the message
duplicated around the backend's prefix (`msg + prefix + msg`, from the
source's `msg += self._msg_prefix + msg`), not the prefix-prepended message
the claim describes; with the flag clear the message is unchanged. -/
theorem C1_getmsg_eval :
    getmsg true LoggingLogger.msgPfx "loading dataset" []
      = "loading dataset\tloading dataset" ∧
    getmsg true SpinningLogger.msgPfx "loading dataset" []
      = "loading dataset> loading dataset" ∧
    getmsg false LoggingLogger.msgPfx "loading dataset" []
      = "loading dataset" :=
  ⟨rfl, rfl, rfl⟩

/-- Claim C2: `start` sets the "currently showing progress" flag to true and
each of `ok`, `skip`, `fail` sets it to false — both for the base `Logger`
operations and for the `LoggingLogger` overrides that chain to them — so
after any nonempty sequence of lifecycle operations the flag is true exactly
when the most recent operation was `start`. -/
theorem C2_lifecycle_flag :
    (∀ s, lifecycleStep s LifecycleOp.start = true ∧
        lifecycleStep s LifecycleOp.ok = false ∧
        lifecycleStep s LifecycleOp.skip = false ∧
        lifecycleStep s LifecycleOp.fail = false) ∧
    (∀ s msg args lk,
        (LoggingLogger.start s msg args lk).2 = true ∧
        (LoggingLogger.ok s msg args lk).2 = false ∧
        (LoggingLogger.skip s msg args lk).2 = false ∧
        (LoggingLogger.fail s msg args lk).2 = false) ∧
    (∀ init ops op, runLifecycle init (ops ++ [op]) = isStart op) := by
  refine ⟨fun s => ⟨rfl, rfl, rfl, rfl⟩,
    fun s msg args lk => ⟨rfl, rfl, rfl, rfl⟩, ?_⟩
  intro init ops op
  induction ops generalizing init with
  | nil => cases op <;> rfl
  | cons o rest ih => exact ih (lifecycleStep init o)

/-- Claim C3 (counterexample): a record marked with the `same_line`
attribute does NOT get its own line — `emit` writes the formatted message
followed by `'.'` with no line terminator and leaves the handler's
`on_same_line` state true, contradicting the claim that a marked record
gets its own line. -/
theorem C3_counterexample :
    emit false true "Loading tool list" = ("Loading tool list.", true) ∧
    ¬ (emit false true "Loading tool list").2 = false :=
  ⟨rfl, by decide⟩

/-- Claim C3 (amended): a record marked `same_line` keeps the cursor on the
single shared line (the message is written followed by `'.'` and the handler
stays in the on-same-line state), while an unmarked record gets its own line
(terminated by `'\r\n'`, preceded by `'\r\n'` when the handler was on the
shared line). -/
theorem C3_same_line_amended (b : Bool) (msg : String) :
    emit b true msg = (msg ++ ".", true) ∧
    emit true false msg = ("\r\n" ++ (msg ++ "\r\n"), false) ∧
    emit false false msg = (msg ++ "\r\n", false) := by
  refine ⟨?_, rfl, rfl⟩
  cases b <;> rfl

/-- Claim C4: `SpinningLogger._mlog` writes the identical formatted message
text to the terminal spinner and to the file-backed logger, and files it at
the severity level it was called with. -/
theorem C4_mirror (spinning : Bool) (level : Nat) (msg : String)
    (args : List String) :
    (SpinningLogger.mlog spinning level msg args).1
      = (SpinningLogger.mlog spinning level msg args).2.msg ∧
    (SpinningLogger.mlog spinning level msg args).2.level = level :=
  ⟨rfl, rfl⟩

/-- Claim C5: the spinner backend maps each lifecycle event to its fixed
color, symbol, and mirrored file-log line: `start` sets the color from the
`color` keyword argument with default `'cyan'` and files the text at INFO;
`ok` sets `'green'` and symbol `'✔'`; `skip` sets `'yellow'` and symbol
`'-'`; `fail` sets `'red'` and symbol `'✘'`; and each of `ok`/`skip`/`fail`
files `'<symbol> <text>'` at INFO. -/
theorem C5_lifecycle_mapping (s : SpinState) (msg : String)
    (colorKw : Option String) (append : Option String) :
    (SpinningLogger.start s msg colorKw).1.color = colorKw.getD "cyan" ∧
    (SpinningLogger.start s msg colorKw).2 = ⟨INFO, msg⟩ ∧
    (SpinningLogger.ok s append).1.color = "green" ∧
    (SpinningLogger.ok s append).2.1 = "✔" ∧
    (SpinningLogger.ok s append).2.2
      = ⟨INFO, "✔" ++ " " ++ (SpinningLogger.appendKw s append).text⟩ ∧
    (SpinningLogger.skip s append).1.color = "yellow" ∧
    (SpinningLogger.skip s append).2.1 = "-" ∧
    (SpinningLogger.skip s append).2.2
      = ⟨INFO, "-" ++ " " ++ (SpinningLogger.appendKw s append).text⟩ ∧
    (SpinningLogger.fail s append).1.color = "red" ∧
    (SpinningLogger.fail s append).2.1 = "✘" ∧
    (SpinningLogger.fail s append).2.2
      = ⟨INFO, "✘" ++ " " ++ (SpinningLogger.appendKw s append).text⟩ :=
  ⟨rfl, rfl, rfl, rfl, rfl, rfl, rfl, rfl, rfl, rfl, rfl⟩

/-- Claim C6: `setup_global_logger` selects the backend by the `logger`
name: `'spinning'` yields a `SpinningLogger` wired to the resolved log
file, and every other value yields the conventional logger from
`setup_global_logging_logger` wired to the same resolved log file. -/
theorem C6_backend_selection (tempName name : String)
    (log_file : Option String) (logger : String) :
    (logger = "spinning" →
      setup_global_logger tempName name log_file logger
        = GlobalLogger.spinning name (make_log_file tempName log_file)) ∧
    (logger ≠ "spinning" →
      setup_global_logger tempName name log_file logger
        = GlobalLogger.logging
            (setup_global_logging_logger name
              (make_log_file tempName log_file))) := by
  constructor
  · intro h
    simp [setup_global_logger, h]
  · intro h
    simp [setup_global_logger, h]

/-- Claim C6 witness: the selection evaluated at the names `'spinning'` and
`'logging'` with no log file given. -/
theorem C6_backend_selection_witness :
    setup_global_logger "tmpA" "galaxy" none "spinning"
      = GlobalLogger.spinning "galaxy" "tmpA" ∧
    setup_global_logger "tmpA" "galaxy" none "logging"
      = GlobalLogger.logging (setup_global_logging_logger "galaxy" "tmpA") :=
  ⟨(C6_backend_selection "tmpA" "galaxy" none "spinning").1 rfl,
   (C6_backend_selection "tmpA" "galaxy" none "logging").2 (by decide)⟩

/-- Claim C7 (counterexample): the plain `StreamHandler` carrying the
timestamped formatter is constructed by `setup_global_logging_logger` but
never added, so it is not among the logger's handlers. -/
theorem C7_counterexample :
    ¬ Handler.streamConsole formatterPattern
        ∈ (setup_global_logging_logger "ephemeris" "ephemeris.log").handlers := by
  decide

/-- Claim C7 (amended): the logger returned by `setup_global_logging_logger`
is set to level DEBUG and carries exactly the `ProgressConsoleHandler` (its
console side) and a `FileHandler` on the given log file; the plain
`StreamHandler` with the timestamped formatter is constructed but never
added. -/
theorem C7_dual_handlers_amended (name log_file : String) :
    (setup_global_logging_logger name log_file).level = DEBUG ∧
    (setup_global_logging_logger name log_file).handlers
      = [Handler.progressConsole, Handler.fileHandler log_file] :=
  ⟨rfl, rfl⟩

/-- Claim C8: on the leveled-logging backend, `skip` is the very same
operation as `ok`: for every state, message, arguments, and `level` keyword
the two calls produce the identical log event and flag change. -/
theorem C8_skip_eq_ok (s : Bool) (msg : String) (args : List String)
    (lk : Option Nat) :
    LoggingLogger.skip s msg args lk = LoggingLogger.ok s msg args lk :=
  rfl

/-- Claim C9: `LoggingLogger.fail` always logs at ERROR regardless of any
`level` keyword argument, while `start` and `ok` log at the level given by
the `level` keyword argument, defaulting to DEBUG when absent. -/
theorem C9_levels (s : Bool) (msg : String) (args : List String)
    (lk : Option Nat) :
    (LoggingLogger.fail s msg args lk).1.level = ERROR ∧
    (LoggingLogger.start s msg args lk).1.level = lk.getD DEBUG ∧
    (LoggingLogger.ok s msg args lk).1.level = lk.getD DEBUG :=
  ⟨rfl, rfl, rfl⟩

/-- Claim C10: `ProgressConsoleHandler.emit` only re-raises
`KeyboardInterrupt` and `SystemExit`; every other exception raised by the
body is routed to `handleError` and the call returns normally, and a
non-raising body returns normally with what `emit` wrote. -/
theorem C10_emit_no_raise :
    (∀ body e, emitGuard body = EmitOutcome.raised e →
      e = PyExc.keyboardInterrupt ∨ e = PyExc.systemExit) ∧
    (∀ n, emitGuard (Except.error (PyExc.exc n))
      = EmitOutcome.errorHandled) ∧
    (∀ b sl msg, emitGuard (Except.ok (emit b sl msg))
      = EmitOutcome.normal (emit b sl msg).1 (emit b sl msg).2) := by
  refine ⟨?_, fun n => rfl, fun b sl msg => rfl⟩
  intro body e h
  cases body with
  | ok r => exact absurd h (by simp [emitGuard])
  | error ex =>
      cases ex with
      | keyboardInterrupt =>
          refine Or.inl ?_
          injection h with h1
          exact h1.symm
      | systemExit =>
          refine Or.inr ?_
          injection h with h1
          exact h1.symm
      | exc n => simp [emitGuard] at h

/-- Claim C10 witness: the guard evaluated on a body raising
`KeyboardInterrupt` (which is re-raised) and on a body raising a
`ValueError` (which is handled). -/
theorem C10_emit_no_raise_witness :
    (PyExc.keyboardInterrupt = PyExc.keyboardInterrupt ∨
      PyExc.keyboardInterrupt = PyExc.systemExit) ∧
    emitGuard (Except.error (PyExc.exc "ValueError"))
      = EmitOutcome.errorHandled :=
  ⟨C10_emit_no_raise.1 (Except.error PyExc.keyboardInterrupt)
      PyExc.keyboardInterrupt rfl,
   C10_emit_no_raise.2.1 "ValueError"⟩

end EphemerisLog
